import Mathlib

/-!
Verification development for the DevSys repository: a file-backed task store
(`src/manager/app.py`) plus polling worker agents
(`src/deployment-agent/worker.py`, `src/coding-agent/worker.py`,
`src/testing-agent/worker.py`).

The definitions below are shallow embeddings of the Python source.  Directories
are finite association lists from entry names to file trees, the manager's task
store is an association list from task ids to task directories, and each
endpoint or worker phase is a pure Lean function mirroring the corresponding
Python function line by line.  All definitions are executable.

Note on `src/deployment-agent/worker.py`: the file as committed does not parse
as Python (`IndentationError: unexpected indent` at line 65; a second
mis-indented block sits at lines 222-225).  The deploy/record functions below
embed the evident block structure of lines 90-248 (the two mis-indented blocks
are HTTP status posts that do not touch the filesystem), and the lexical defect
itself is modelled separately by `pyIndentOk` together with the indentation
profiles of the affected lines.
-/

/-- A node of a filesystem tree: a regular file with its byte content, or a
subdirectory with its named entries (as `shutil.copytree` and `os.rename`
see it). -/
inductive FileTree where
  | file (content : String)
  | dir (entries : List (String × FileTree))

/-- A directory is its list of named entries.  Deployment snapshots
(`current`, each `revisions/<name>`) are directories. -/
abbrev Dir := List (String × FileTree)

/-! ## Acceptance checking (`check_acceptance`, worker.py lines 72-88) -/

/-- One element of the `acceptance` list of a task spec, as `check_acceptance`
classifies it: a non-dict entry, a dict without a `url` key, or a dict with a
`url` and an optional `should_respond` expected code. -/
inductive AcceptanceItem where
  | nonDict
  | noUrl
  | probe (url : String) (shouldRespond : Option Nat)
  deriving DecidableEq

/-- Outcome of `requests.get(url, timeout=5)`: a response with a status code,
or a raised exception rendered as text (connection error, timeout, ...). -/
inductive ProbeResult where
  | code (n : Nat)
  | failure (err : String)
  deriving DecidableEq

/-- The `info` dict returned by `check_acceptance`: either
`\x7b'url': u, 'status_code': n\x7d`, or `\x7b'url': u, 'error': e\x7d`, or
`\x7b'info': msg\x7d`. -/
inductive AcceptInfo where
  | result (url : String) (statusCode : Nat)
  | errorInfo (url : String) (err : String)
  | info (msg : String)
  deriving DecidableEq

/-- `check_acceptance(task_dir, spec)` (worker.py lines 72-88), with the HTTP
request abstracted as an oracle `http`.  The loop returns on the first dict
item carrying a `url`; the expected code defaults to 200; with no such item it
returns `(True, \x7b'info': 'no_url_checks'\x7d)`. -/
def check_acceptance (acceptance : List AcceptanceItem) (http : String → ProbeResult) :
    Bool × AcceptInfo :=
  match acceptance with
  | [] => (true, AcceptInfo.info "no_url_checks")
  | AcceptanceItem.probe url sr :: _ =>
    let expected := sr.getD 200
    match http url with
    | ProbeResult.code n =>
      if n = expected then (true, AcceptInfo.result url n)
      else (false, AcceptInfo.result url n)
    | ProbeResult.failure e => (false, AcceptInfo.errorInfo url e)
  | _ :: rest => check_acceptance rest http

/-- Claim-side restatement of the acceptance policy, written from the claim's
words ("the result is determined by the first probe in the probe list that has
an addressable target; all later probes are ignored"), with the info string of
the no-probe case amended to the `'no_url_checks'` the code actually uses.
Compared with `check_acceptance` by the C6 theorem. -/
def firstAddressable : List AcceptanceItem → Option (String × Nat)
  | [] => none
  | AcceptanceItem.probe url sr :: _ => some (url, sr.getD 200)
  | _ :: rest => firstAddressable rest

/-- Claim-side acceptance semantics built on `firstAddressable`; see its
doc comment. -/
def acceptanceClaimModel (acceptance : List AcceptanceItem) (http : String → ProbeResult) :
    Bool × AcceptInfo :=
  match firstAddressable acceptance with
  | none => (true, AcceptInfo.info "no_url_checks")
  | some (url, expected) =>
    match http url with
    | ProbeResult.code n => (decide (n = expected), AcceptInfo.result url n)
    | ProbeResult.failure e => (false, AcceptInfo.errorInfo url e)

/-! ## Deployment records (`write_deploy_record`, worker.py lines 39-50,
and the record phase of the poll loop, lines 208-232) -/

/-- One entry of `deploy_records.json`.  The first write of a deployment has no
`acceptance`/`verified` keys; the second write adds them. -/
structure DeployRecord where
  task : String
  timestamp : String
  path : String
  acceptance : Option AcceptInfo := none
  verified : Option Bool := none
  deriving DecidableEq

/-- `write_deploy_record(task_dir, record)` (worker.py lines 39-50): read the
existing list and append one record.  (The Python fallback that resets an
unreadable file to `[]` cannot fire in this pure model, where the stored list
is always well formed.) -/
def write_deploy_record (records : List DeployRecord) (r : DeployRecord) : List DeployRecord :=
  records ++ [r]

/-! ## Deployment filesystem state and the deploy/rollback operations -/

/-- One task's deployment area (`deploy/<task>/` with `current` and
`revisions/`) together with the task's `deploy_records.json` content.
`revisions = none` models an absent `revisions` directory;
`some []` models the directory existing but empty. -/
structure DeployState where
  current : Option Dir
  revisions : Option (List (String × Dir))
  records : List DeployRecord

/-- Replace the value stored at key `name` in an association list (used for the
in-place growth of an existing revision directory that `shutil.move`
performs when its destination already exists). -/
def setEntry (name : String) (v : Dir) : List (String × Dir) → List (String × Dir)
  | [] => []
  | (k, d) :: rest => if k = name then (k, v) :: rest else (k, d) :: setEntry name v rest

/-- `shutil.move(current_dir, revisions/<name>)` as performed by the deploy
loop (worker.py lines 131-135) and by `rollback_deploy` (app.py lines
474-477).  On one filesystem this is a rename when the destination does not
exist; when `revisions/<name>` already exists as a directory, `shutil.move`
moves the source *into* it, producing `revisions/<name>/current` instead of a
fresh revision name. -/
def archiveRev (name : String) (c : Dir) (revs : List (String × Dir)) : List (String × Dir) :=
  match revs.lookup name with
  | none => revs ++ [(name, c)]
  | some es => setEntry name (es ++ [("current", FileTree.dir c)]) revs

/-- The filesystem phase of one deployment (worker.py lines 121-137):
`os.makedirs(revisions, exist_ok=True)`; copy the task's `src` into a staging
directory; if a `current` deployment exists, `shutil.move` it to
`revisions/<ts>` where `ts = datetime.utcnow().strftime('%Y%m%dT%H%M%SZ')`;
finally `os.rename` the staging copy into `current`. -/
def deployFs (ts : String) (src : Dir) (s : DeployState) : DeployState :=
  let revs := s.revisions.getD []
  match s.current with
  | some c => { s with revisions := some (archiveRev ts c revs), current := some src }
  | none => { s with revisions := some revs, current := some src }

/-- One full pass of the deploy section of the poll loop for a qualifying task
(worker.py lines 118-137 and 208-232, local-runner branch): the filesystem
swap, then `write_deploy_record` with `\x7btask, timestamp, path\x7d`, then the
acceptance check, then `write_deploy_record` again with the same record
augmented with `acceptance` and `verified`.  `ts` is the revision timestamp,
`iso` the ISO record timestamp, `p` the recorded deploy path.  Returns the new
state and the acceptance verdict. -/
def deployProcess (name ts iso p : String) (src : Dir) (acc : List AcceptanceItem)
    (http : String → ProbeResult) (s : DeployState) : DeployState × Bool :=
  let s1 := deployFs ts src s
  let r1 : DeployRecord := { task := name, timestamp := iso, path := p }
  let recs1 := write_deploy_record s1.records r1
  let res := check_acceptance acc http
  let r2 : DeployRecord := { r1 with acceptance := some res.2, verified := some res.1 }
  let recs2 := write_deploy_record recs1 r2
  ({ s1 with records := recs2 }, res.1)

/-! ## Python string comparison (used by `sorted(os.listdir(...))[-1]`) -/

/-- Python's `<` on single characters compares code points. -/
def charLt (a b : Char) : Bool := a.toNat < b.toNat

/-- Python's lexicographic `<` on strings, over their character lists. -/
def ltCharList : List Char → List Char → Bool
  | [], [] => false
  | [], _ :: _ => true
  | _ :: _, [] => false
  | a :: as, b :: bs =>
    if charLt a b then true
    else if charLt b a then false
    else ltCharList as bs

/-- Python's `<` on strings. -/
def pyStrLt (a b : String) : Bool := ltCharList a.data b.data

/-- Python's `<=` on strings (total order: `a <= b` iff not `b < a`). -/
def pyStrLe (a b : String) : Bool := !(pyStrLt b a)

/-- The last element of `sorted(names)`, i.e. the lexicographically greatest
name (directory listings never repeat a name).  `rollback_deploy` uses this to
pick the default target revision (app.py line 469 and 472). -/
def maxName : List String → Option String
  | [] => none
  | n :: rest =>
    match maxName rest with
    | none => some n
    | some m => some (if pyStrLt n m then m else n)

/-- Scan a character list for two consecutive dots. -/
def hasDotDot : List Char → Bool
  | '.' :: '.' :: _ => true
  | _ :: rest => hasDotDot rest
  | [] => false

/-- Python `'..' in s`. -/
def hasDoubleDot (s : String) : Bool := hasDotDot s.data

/-- Python `'/' in s`. -/
def hasSlash (s : String) : Bool := s.data.contains '/'

/-! ## `rollback_deploy` (app.py lines 450-496) -/

/-- The outcome of `rollback_deploy`: success with `restored_from`, one of the
three 404 responses, the unreachable-by-construction internal error of copying
a vanished revision, or an `unvalidatedJoin`: the raw revision string was not
a plain path component, so `os.path.join(revisions_dir, revision)` does not
denote an entry name of the revisions listing — a `..` step climbs above the
directory, an embedded slash descends below an entry, and an absolute path
replaces the base entirely.  The code never answers 404 `specified revision
not found` for such a joined path when it exists — it proceeds to archive and
restore it — and whether it exists (and what gets restored) is not determined
by the per-task listing this model carries, so only the fact that no by-name
lookup decides the outcome is recorded. -/
inductive RbResp where
  | ok (restoredFrom : String)
  | noDeployHistory
  | noRevisionsDir
  | revisionNotFound
  | noRevisions
  | internalError
  | unvalidatedJoin (raw : String)
  deriving DecidableEq

/-- The restore section of `rollback_deploy` (app.py lines 473-485), given the
chosen target revision name `r`: archive an existing `current` under
`<now>_rollback` via `shutil.move`, `shutil.copytree` the target revision to a
staging directory, and rename it into `current`.  The target's content is read
*after* the archival (the Python `copytree(target, ...)` runs after the
`shutil.move`), so a same-name archival is visible to the restore.  The
`none` branch models `copytree` raising because the target vanished; it cannot
occur for a target chosen from the listing. -/
def doRestore (now r : String) (s : DeployState) (revs : List (String × Dir)) :
    RbResp × Option DeployState :=
  let revs1 :=
    match s.current with
    | some c => archiveRev (now ++ "_rollback") c revs
    | none => revs
  match revs1.lookup r with
  | some tgt =>
    (RbResp.ok r, some { current := some tgt, revisions := some revs1, records := s.records })
  | none =>
    (RbResp.internalError, some { current := none, revisions := some revs1, records := s.records })

/-- A revision string that is a single ordinary path component: non-empty, no
`/`, and not the special entries `.` or `..`.  Exactly for these strings does
`os.path.exists(os.path.join(revisions_dir, revision))` (app.py line 465)
coincide with membership in the revisions listing. -/
def isPlainName (r : String) : Bool :=
  r != "" && !(hasSlash r) && r != "." && r != ".."

/-- The restore section for `revision = "."`:
`os.path.join(revisions_dir, ".")` exists whenever the revisions directory
does, so the code does not 404 — it archives an existing `current` and then
`copytree`s the whole (post-archival) revisions directory into place as the
new `current`; `os.path.basename` of the joined path is `"."`. -/
def doRestoreDot (now : String) (s : DeployState) (revs : List (String × Dir)) :
    RbResp × Option DeployState :=
  let revs1 :=
    match s.current with
    | some c => archiveRev (now ++ "_rollback") c revs
    | none => revs
  (RbResp.ok ".",
   some { current := some (revs1.map (fun e => (e.1, FileTree.dir e.2))),
          revisions := some revs1, records := s.records })

/-- `rollback_deploy(task_id)` (app.py lines 450-496) over the task's
deployment area.  `root = none` models a missing `deploy/<task>` directory.
The request's `revision` is used unvalidated: Python's `if revision:` treats
`None` and `""` alike (no-argument rollback: the lexicographically greatest
revision name, `sorted(os.listdir(revisions_dir))[-1]`, is chosen).  An
explicit revision is checked with
`os.path.exists(os.path.join(revisions_dir, revision))`: for a plain path
component this is exactly membership in the revisions listing (404 `specified
revision not found` otherwise); `"."` joins to the revisions directory itself,
which exists, so the code proceeds and restores it (`doRestoreDot`); any other
string (`".."`, an embedded `/`, an absolute path) is not an entry name of the
listing — it resolves above the directory, below an entry, or elsewhere — and
is recorded as `unvalidatedJoin`: the code does not 404 such a path when it
exists.  The task-metadata update to `rolled_back`
(lines 486-495) touches only `meta.json` and is modelled with the store
operations, not here; no claim depends on it. -/
def rollback_deploy (now : String) (revision : Option String) (root : Option DeployState) :
    RbResp × Option DeployState :=
  match root with
  | none => (RbResp.noDeployHistory, none)
  | some s =>
    match s.revisions with
    | none => (RbResp.noRevisionsDir, some s)
    | some revs =>
      match revision with
      | some r =>
        if r != "" then
          if isPlainName r then
            if (revs.lookup r).isSome then doRestore now r s revs
            else (RbResp.revisionNotFound, some s)
          else if r = "." then doRestoreDot now s revs
          else (RbResp.unvalidatedJoin r, none)
        else
          match maxName (revs.map Prod.fst) with
          | none => (RbResp.noRevisions, some s)
          | some r2 => doRestore now r2 s revs
      | none =>
        match maxName (revs.map Prod.fst) with
        | none => (RbResp.noRevisions, some s)
        | some r2 => doRestore now r2 s revs

/-! ## The manager's task store (`src/manager/app.py`) -/

/-- `meta.json` of a task, with the keys the manager reads and writes
(`create_task` lines 249-254, `update_status` lines 384-389).  `updated_at`
is absent until the first status update; `secrets` is set by
`_handle_deployment_secrets`. -/
structure Meta where
  id : String
  title : String
  status : String
  created_at : String
  updated_at : Option String := none
  secrets : Bool := false
  deriving DecidableEq

/-- The `deployment` block of a spec (`_handle_deployment_secrets`,
app.py lines 131-170): environment variables rendered into `.env`, and
declared secret names that get empty placeholder files. -/
structure DeployBlock where
  env : List (String × String) := []
  secretNames : List String := []
  deriving DecidableEq

/-- A request/task spec, restricted to the keys `create_task` inspects:
manifest-detection keys (`schemaVersion`, `name`, `slug`), the manifest fields
copied by the conversion (`name`, `summary`, `contact.maintainer` flattened to
`maintainer`, `deployment`), and a plain spec's own `deployment` block.
Absent keys are `none`; Python truthiness of an empty `slug` is modelled
explicitly where it matters. -/
structure Spec where
  schemaVersion : Option String := none
  name : Option String := none
  slug : Option String := none
  summary : Option String := none
  maintainer : Option String := none
  deployment : Option DeployBlock := none
  deriving DecidableEq

/-- The task spec that `create_task` synthesizes from a project manifest
(app.py lines 219-230): fixed `kind='deployment'`, `deploy=True`, the whole
manifest stored under `project`, and the manifest's deployment block copied
up. -/
structure ConvertedSpec where
  id : String
  title : Option String
  description : Option String
  owner : String
  kind : String
  deploy : Bool
  project : Spec
  deployment : Option DeployBlock
  deriving DecidableEq

/-- The content of a task's `spec.yaml`: either the request spec dumped as-is
(line 182 `spec = data.get('spec') or data`), or the manifest conversion. -/
inductive SpecFile where
  | fromRequest (s : Spec)
  | converted (c : ConvertedSpec)
  deriving DecidableEq

/-- An entry of a task's `secrets/` directory: a regular file with content, or
a subdirectory (which the listing endpoint filters out). -/
inductive SNode where
  | file (content : String)
  | subdir
  deriving DecidableEq

/-- One task directory `workspace/tasks/<id>/`: the optional `spec.yaml`,
`meta.json` and `secrets/` directory. -/
structure TaskDir where
  spec : Option SpecFile := none
  meta : Option Meta := none
  secrets : Option (List (String × SNode)) := none
  deriving DecidableEq

/-- The task store: the `workspace/tasks` directory as an association list
from task id to task directory. -/
abbrev Store := List (String × TaskDir)

/-- Insert or replace the directory of task `k` (`os.makedirs(...,
exist_ok=True)` followed by file writes inside it). -/
def storeSet (k : String) (v : TaskDir) : Store → Store
  | [] => [(k, v)]
  | (k', v') :: rest => if k' = k then (k, v) :: rest else (k', v') :: storeSet k v rest

/-- `task_path`'s validation (app.py lines 125-129): reject empty ids and ids
containing `..` or `/`. -/
def taskPathOk (taskId : String) : Bool :=
  taskId != "" && !(hasDoubleDot taskId) && !(hasSlash taskId)

/-- The id check of `create_task` (app.py line 191):
`task_id.replace('-', '').replace('_', '').isalnum()`.  Python's `isalnum` is
false on the empty string; characters are modelled as ASCII alphanumerics. -/
def validTaskId (taskId : String) : Bool :=
  let stripped := taskId.data.filter (fun c => !(c = '-' || c = '_'))
  stripped != [] && stripped.all Char.isAlphanum

/-- Manifest detection (app.py line 202):
`any(k in spec for k in ('schemaVersion', 'name', 'slug'))`. -/
def isManifest (s : Spec) : Bool :=
  s.schemaVersion.isSome || s.name.isSome || s.slug.isSome

/-- The manifest-to-task-spec conversion (app.py lines 219-230). -/
def convertManifest (taskId : String) (proj : Spec) : ConvertedSpec :=
  { id := taskId
    title := proj.name
    description := proj.summary
    owner := proj.maintainer.getD "manager"
    kind := "deployment"
    deploy := true
    project := proj
    deployment := proj.deployment }

/-- The `deployment` block `create_task` consults after conversion
(app.py line 257: `spec.get('deployment')`). -/
def specDeployment : SpecFile → Option DeployBlock
  | SpecFile.fromRequest s => s.deployment
  | SpecFile.converted c => c.deployment

/-- Render an `env` dict as the lines of a `.env` file (app.py lines 141-143). -/
def renderEnv : List (String × String) → String
  | [] => ""
  | (k, v) :: rest => k ++ "=" ++ v ++ "\n" ++ renderEnv rest

/-- `_handle_deployment_secrets` (app.py lines 131-170) on the task
directory's `secrets/` entries: write `.env` when `env` is non-empty, create
empty placeholder files for declared secret names (skipping unsafe names and
names that already exist).  The companion effect `meta['secrets'] = True` is
applied by the caller. -/
def handleDeploymentSecrets (dep : DeployBlock) (entries : List (String × SNode)) :
    List (String × SNode) :=
  let withEnv :=
    if dep.env != [] then
      match entries.lookup ".env" with
      | some _ =>
        entries.map (fun e => if e.1 = ".env" then (".env", SNode.file (renderEnv dep.env)) else e)
      | none => entries ++ [(".env", SNode.file (renderEnv dep.env))]
    else entries
  dep.secretNames.foldl
    (fun es name =>
      if name = "" || hasDoubleDot name || hasSlash name then es
      else match es.lookup name with
        | some _ => es
        | none => es ++ [(name, SNode.file "")])
    withEnv

/-- The manager's response to `POST /api/tasks`. -/
inductive CreateResp where
  | created (m : Meta)
  | validationErr (msg : String)
  deriving DecidableEq

/-- `create_task` (app.py lines 172-274).  External collaborators are
parameters: `projLoaded`/`projOk` stand for `PROJECT_SCHEMA` being loaded and
`jsonschema.validate` against it succeeding, `taskLoaded`/`taskOk` likewise
for `TASK_SCHEMA`; `genId` is the `task-<uuid>` fallback id, `now` the
`datetime.utcnow()` stamp.  Order of checks follows the source: id validity
(line 191), `task_path` safety and existence of the *original* id (lines
196-198), manifest validation (lines 202-209), slug reassignment with a fresh
`task_path` call but **no new existence check** (lines 214-216), task-schema
validation (lines 233-239), then the writes (lines 242-263) with
`os.makedirs(..., exist_ok=True)`. -/
def create_task (projLoaded : Bool) (projOk : Spec → Bool) (taskLoaded : Bool)
    (taskOk : SpecFile → Bool) (genId now : String) (reqId reqTitle : Option String)
    (reqSpec : Spec) (store : Store) : CreateResp × Store :=
  let taskId0 :=
    match reqId with
    | some i => if i = "" then genId else i
    | none => genId
  if !(validTaskId taskId0) then
    (CreateResp.validationErr "Task ID must be alphanumeric with hyphens and underscores only",
      store)
  else if !(taskPathOk taskId0) then
    (CreateResp.validationErr "Invalid task ID", store)
  else if (store.lookup taskId0).isSome then
    (CreateResp.validationErr "Task already exists", store)
  else
    let detected := projLoaded && isManifest reqSpec
    if detected && !(projOk reqSpec) then
      (CreateResp.validationErr "Project manifest validation failed", store)
    else
      let taskId :=
        if detected then
          match reqSpec.slug with
          | some sl => if sl = "" then taskId0 else sl
          | none => taskId0
        else taskId0
      let specFile :=
        if detected then SpecFile.converted (convertManifest taskId reqSpec)
        else SpecFile.fromRequest reqSpec
      if detected && !(taskPathOk taskId) then
        (CreateResp.validationErr "Invalid task ID", store)
      else if taskLoaded && !(taskOk specFile) then
        (CreateResp.validationErr "Task spec validation failed", store)
      else
        let old := ((store.lookup taskId).getD {} : TaskDir)
        let t1 : TaskDir := { old with spec := some specFile }
        let dep := specDeployment specFile
        let t2 :=
          match dep with
          | some dblock =>
            { t1 with secrets := some (handleDeploymentSecrets dblock (t1.secrets.getD [])) }
          | none => t1
        let meta : Meta :=
          { id := taskId
            title := reqTitle.getD "untitled"
            status := "created"
            created_at := now
            secrets := dep.isSome }
        let t3 := { t2 with meta := some meta }
        (CreateResp.created meta, storeSet taskId t3 store)

/-! ## `update_status` (app.py lines 373-390) with its filesystem write trace -/

/-- A store-level filesystem operation, as seen by a concurrent reader:
a whole-file read, a direct `open(path, 'w')` truncate-and-write, or an
`os.rename(src, dst)`. -/
inductive FsOp where
  | readFile (path : String)
  | writeFile (path : String)
  | renameFile (src dst : String)
  deriving DecidableEq

/-- The path of a task's `meta.json` (WORKSPACE defaulting to `/workspace`). -/
def metaPath (taskId : String) : String :=
  "/workspace/tasks/" ++ taskId ++ "/meta.json"

/-- The replace-on-write discipline the claim (and spec section 4.1) ascribes
to every store write: the record is never written directly to its final path;
it is written to some temporary path and then renamed into place. -/
def usesReplaceOnWrite (trace : List FsOp) (finalPath : String) : Prop :=
  (∀ op ∈ trace, op ≠ FsOp.writeFile finalPath) ∧
  ∃ tmp, tmp ≠ finalPath ∧ FsOp.writeFile tmp ∈ trace ∧ FsOp.renameFile tmp finalPath ∈ trace

/-- The manager's response to `POST /api/tasks/<id>/status`. -/
inductive StatusResp where
  | ok (m : Meta)
  | invalidId
  | notFound
  | missingStatus
  deriving DecidableEq

/-- Update the `meta.json` of task `tid` (a write into an existing task
directory). -/
def setTaskMeta (tid : String) (m : Meta) : Store → Store :=
  List.map (fun e => if e.1 = tid then (e.1, { e.2 with meta := some m }) else e)

/-- `update_status` (app.py lines 373-390): `task_path` validation, 404 when
`meta.json` is missing, 400 when the payload has no `status`, otherwise a
read-modify-write that sets `status`, stamps `updated_at`, and writes the
record back with a direct `open(meta_file, 'w')` — the emitted trace of
filesystem operations is returned alongside the response and new store. -/
def update_status (taskId : String) (payload : Option String) (now : String)
    (store : Store) : StatusResp × Store × List FsOp :=
  if !(taskPathOk taskId) then (StatusResp.invalidId, store, [])
  else
    match (store.lookup taskId).bind TaskDir.meta with
    | none => (StatusResp.notFound, store, [])
    | some m =>
      match payload with
      | none => (StatusResp.missingStatus, store, [])
      | some st =>
        let m2 := { m with status := st, updated_at := some now }
        (StatusResp.ok m2, setTaskMeta taskId m2 store,
          [FsOp.readFile (metaPath taskId), FsOp.writeFile (metaPath taskId)])

/-! ## The secrets listing endpoint (app.py lines 339-348) -/

/-- The manager's response to `GET /api/tasks/<id>/secrets`. -/
inductive SecResp where
  | invalidId
  | notFound
  | files (names : List String)
  deriving DecidableEq

/-- `os.path.isfile` on a secrets-directory entry. -/
def isFileEntry (e : String × SNode) : Bool :=
  match e.2 with
  | SNode.file _ => true
  | SNode.subdir => false

/-- `list_task_secrets` (app.py lines 339-348): 404 when the task directory is
missing, `\x7b'files': []\x7d` when there is no `secrets/` directory, else the
names of the regular files in `secrets/` — contents are never read. -/
def list_task_secrets (taskId : String) (store : Store) : SecResp :=
  if !(taskPathOk taskId) then SecResp.invalidId
  else
    match store.lookup taskId with
    | none => SecResp.notFound
    | some t =>
      match t.secrets with
      | none => SecResp.files []
      | some es => SecResp.files ((es.filter isFileEntry).map Prod.fst)

/-- Rewrite one secrets-directory entry's file content with `f`, keeping its
name and its file-vs-directory shape. -/
def mapSNode (f : String → String → String) : String × SNode → String × SNode
  | (name, SNode.file c) => (name, SNode.file (f name c))
  | (name, SNode.subdir) => (name, SNode.subdir)

/-- Rewrite the *contents* of every secret file of task `tid` with `f`
(name and old content to new content), leaving every name, every
file-vs-directory shape, and everything else in the store untouched.  Two
stores `s` and `mapSecretContents f tid s` differ only in secret file
contents. -/
def mapSecretContents (f : String → String → String) (tid : String) : Store → Store :=
  List.map (fun e =>
    if e.1 = tid then
      (e.1, { e.2 with secrets := e.2.secrets.map (List.map (mapSNode f)) })
    else e)

/-! ## The lexical layout of `src/deployment-agent/worker.py`

The committed worker file is rejected by Python's tokenizer with
`IndentationError: unexpected indent` at line 65.  We model the INDENT/DEDENT
rule of the tokenizer over the file's logical lines: each logical line
contributes its leading-space count and whether it is a block header (ends
with a colon); comments and blank lines contribute nothing, and a
bracket-continued statement is one logical line at the indent of its first
physical line. -/

/-- Pop the indentation stack down to level `ind`: legal only if `ind` is
exactly one of the enclosing levels. -/
def dropIndent (ind : Nat) : List Nat → Option (List Nat)
  | [] => none
  | l :: rest =>
    if l = ind then some (l :: rest)
    else if l < ind then none
    else dropIndent ind rest

/-- Python's INDENT/DEDENT validity over logical lines `(indent, endsWithColon)`.
After a block header the next logical line must indent strictly deeper; an
indent increase anywhere else is an `unexpected indent` error; a dedent must
return to an enclosing level exactly.  The `expect` flag records that the
previous logical line was a block header. -/
def pyIndentOk : List Nat → Bool → List (Nat × Bool) → Bool
  | _, expect, [] => !expect
  | stack, expect, (ind, colon) :: rest =>
    match stack with
    | [] => false
    | top :: _ =>
      if expect then
        if top < ind then pyIndentOk (ind :: stack) colon rest else false
      else
        if top < ind then false
        else if ind = top then pyIndentOk stack colon rest
        else
          match dropIndent ind stack with
          | some st => pyIndentOk st colon rest
          | none => false

/-- The logical lines of `create_followup_task` (worker.py lines 53-68):
line 53 `def create_followup_task(task_id, reason):` at indent 0;
lines 55-64, one bracket-continued assignment `payload = ...` at indent 4;
line 65 `try:` at indent 8 — over-indented after a non-header line;
line 66 `requests.post(...)` at indent 16;
line 67 `except Exception as e:` at indent 12;
line 68 `print(...)` at indent 16. -/
def createFollowupLines : List (Nat × Bool) :=
  [(0, true), (4, false), (8, true), (16, false), (12, true), (16, false)]

/-- The logical lines of worker.py from line 1 up to and including line 65,
where CPython reports `IndentationError: unexpected indent`.  (Python rejects
the whole file at the first tokenizer error, so the remaining lines cannot
change the verdict.)  Per physical line:
1-8 imports (indent 0); 11 `sys.path.insert(...)`; 12 `try:`; 13 the
`from utils ...` statement (4); 14 `except Exception:` (0); 15
`runner_utils = None` (4);
17-21 five assignments (0); 23 `os.makedirs(...)` (0); 25 `HEADERS` assignment
(0); 26 `if MANAGER_API_TOKEN:` (0); 27 assignment (4); 29 `print(...)` (0);
31 `def read_meta(...):` (0); 32 assignment (4); 33 `if not ...:` (4);
34 `return None` (8); 35 `with open(...) as f:` (4); 36 `return ...` (8);
39 `def write_deploy_record(...):` (0); 40-41 assignments (4);
42 `if os.path.exists(...):` (4); 43 `try:` (8); 44 `with open(...) as f:`
(12); 45 assignment (16); 46 `except Exception:` (8); 47 assignment (12);
48 `records.append(record)` (4); 49 `with open(...) as f:` (4);
50 `json.dump(...)` (8); 53 `def create_followup_task(...):` (0);
55-64 bracket-continued `payload = ...` (4); 65 `try:` (8). -/
def deploymentWorkerHeadLines : List (Nat × Bool) :=
  [(0, false), (0, false), (0, false), (0, false), (0, false), (0, false), (0, false), (0, false),
   (0, false),
   (0, true), (4, false), (0, true), (4, false),
   (0, false), (0, false), (0, false), (0, false), (0, false),
   (0, false),
   (0, false), (0, true), (4, false),
   (0, false),
   (0, true), (4, false), (4, true), (8, false), (4, true), (8, false),
   (0, true), (4, false), (4, false), (4, true), (8, true), (12, true), (16, false),
   (8, true), (12, false), (4, false), (4, true), (8, false),
   (0, true), (4, false), (8, true)]

/-! ## Helper lemmas: Python string order -/

theorem charLt_irrefl (a : Char) : charLt a a = false := by
  simp [charLt]

theorem ltCharList_irrefl (l : List Char) : ltCharList l l = false := by
  induction l with
  | nil => rfl
  | cons a as ih => simp [ltCharList, charLt_irrefl, ih]

theorem pyStrLt_irrefl (s : String) : pyStrLt s s = false := by
  simp [pyStrLt, ltCharList_irrefl]

theorem pyStrLt_ne {a b : String} (h : pyStrLt a b = true) : a ≠ b := by
  intro he
  subst he
  rw [pyStrLt_irrefl] at h
  exact Bool.noConfusion h

theorem ltCharList_of_not_gt_append (t : List Char) :
    ∀ n : List Char, ltCharList t n = false →
      ∀ (c : Char) (k : List Char), ltCharList n (t ++ c :: k) = true := by
  induction t with
  | nil =>
    intro n h c k
    cases n with
    | nil => rfl
    | cons x xs => exact absurd h (by simp [ltCharList])
  | cons y ys ih =>
    intro n h c k
    cases n with
    | nil => rfl
    | cons x xs =>
      by_cases hyx : charLt y x = true
      · rw [ltCharList, if_pos hyx] at h
        exact Bool.noConfusion h
      · by_cases hxy : charLt x y = true
        · show ltCharList (x :: xs) (y :: (ys ++ c :: k)) = true
          rw [ltCharList, if_pos hxy]
        · rw [ltCharList, if_neg hyx, if_neg hxy] at h
          show ltCharList (x :: xs) (y :: (ys ++ c :: k)) = true
          rw [ltCharList, if_neg hxy, if_neg hyx]
          exact ih xs h c k

theorem strData_append (a b : String) : (a ++ b).data = a.data ++ b.data := by
  cases a
  cases b
  rfl

/-- Python string order: if `n <= t` then `n < t ++ "_rollback"` — a
`_rollback`-suffixed name sorts strictly after every plain name that is
lexicographically at most its timestamp. -/
theorem pyStrLe_lt_append (n t : String) (h : pyStrLe n t = true) :
    pyStrLt n (t ++ "_rollback") = true := by
  have h2 : ltCharList t.data n.data = false := by
    simpa [pyStrLe, pyStrLt] using h
  have h3 := ltCharList_of_not_gt_append t.data n.data h2 '_' "rollback".data
  show ltCharList n.data (t ++ "_rollback").data = true
  rw [strData_append]
  exact h3

theorem append_cancel_strings {a b : String} (u : String) (h : a ++ u = b ++ u) : a = b := by
  have hd : a.data ++ u.data = b.data ++ u.data := by
    rw [← strData_append, ← strData_append, h]
  have h2 : a.data = b.data := List.append_cancel_right hd
  cases a
  cases b
  exact congrArg String.mk h2

/-! ## Helper lemmas: `maxName` (`sorted(...)[-1]`) -/

theorem maxName_isSome (l : List String) (h : l ≠ []) : ∃ m, maxName l = some m := by
  cases l with
  | nil => exact absurd rfl h
  | cons n rest =>
    cases h2 : maxName rest with
    | none => exact ⟨n, by simp [maxName, h2]⟩
    | some m => exact ⟨if pyStrLt n m then m else n, by simp [maxName, h2]⟩

theorem maxName_mem {l : List String} {m : String} (h : maxName l = some m) : m ∈ l := by
  induction l generalizing m with
  | nil => exact Option.noConfusion h
  | cons n rest ih =>
    rw [maxName] at h
    cases h2 : maxName rest with
    | none =>
      rw [h2] at h
      cases h
      exact List.mem_cons_self n rest
    | some m2 =>
      rw [h2] at h
      cases h
      by_cases hp : pyStrLt n m2 = true
      · rw [if_pos hp]
        exact List.mem_cons_of_mem n (ih h2)
      · rw [if_neg hp]
        exact List.mem_cons_self n rest

theorem maxName_append_big (l : List String) (a : String)
    (h : ∀ x ∈ l, pyStrLt x a = true) : maxName (l ++ [a]) = some a := by
  induction l with
  | nil => rfl
  | cons n rest ih =>
    have ih2 := ih (fun x hx => h x (List.mem_cons_of_mem n hx))
    have hn : pyStrLt n a = true := h n (List.mem_cons_self n rest)
    simp [maxName, ih2, hn]

/-! ## Helper lemmas: association-list lookups -/

theorem lookupEq {β : Type} (a : String) (b : β) (es : List (String × β)) :
    List.lookup a ((a, b) :: es) = some b := by
  simp [List.lookup]

theorem lookupNe {β : Type} {k a : String} (b : β) (es : List (String × β)) (h : k ≠ a) :
    List.lookup a ((k, b) :: es) = List.lookup a es := by
  have h2 : (a == k) = false := beq_eq_false_iff_ne.mpr (Ne.symm h)
  simp [List.lookup, h2]

theorem lookup_none_of_not_mem {β : Type} {a : String} {l : List (String × β)}
    (h : a ∉ l.map Prod.fst) : List.lookup a l = none := by
  induction l with
  | nil => rfl
  | cons e rest ih =>
    have h1 : e.1 ≠ a := fun he => h (by simp [he])
    have h2 : a ∉ rest.map Prod.fst := fun hm => h (by simp [hm])
    rw [show (e :: rest) = ((e.1, e.2) :: rest) from rfl, lookupNe e.2 rest h1]
    exact ih h2

theorem lookup_append_left {β : Type} {a : String} {l : List (String × β)} {v : β}
    (h : List.lookup a l = some v) (l2 : List (String × β)) :
    List.lookup a (l ++ l2) = some v := by
  induction l with
  | nil => exact Option.noConfusion h
  | cons e rest ih =>
    by_cases he : e.1 = a
    · rw [show (e :: rest) = ((e.1, e.2) :: rest) from rfl] at h ⊢
      subst he
      rw [lookupEq] at h
      rw [List.cons_append, lookupEq]
      exact h
    · rw [show (e :: rest) = ((e.1, e.2) :: rest) from rfl] at h ⊢
      rw [lookupNe e.2 rest he] at h
      rw [List.cons_append, lookupNe e.2 (rest ++ l2) he]
      exact ih h

theorem lookup_append_fresh {β : Type} {a : String} {l : List (String × β)} (v : β)
    (h : List.lookup a l = none) : List.lookup a (l ++ [(a, v)]) = some v := by
  induction l with
  | nil => exact lookupEq a v []
  | cons e rest ih =>
    by_cases he : e.1 = a
    · rw [show (e :: rest) = ((e.1, e.2) :: rest) from rfl] at h
      subst he
      rw [lookupEq] at h
      exact Option.noConfusion h
    · rw [show (e :: rest) = ((e.1, e.2) :: rest) from rfl] at h ⊢
      rw [lookupNe e.2 rest he] at h
      rw [List.cons_append, lookupNe e.2 (rest ++ [(a, v)]) he]
      exact ih h

theorem setEntry_lookup_ne {b : String} (w : Dir) {a : String} (l : List (String × Dir))
    (h : a ≠ b) : List.lookup a (setEntry b w l) = List.lookup a l := by
  induction l with
  | nil => rfl
  | cons e rest ih =>
    rw [show (e :: rest) = ((e.1, e.2) :: rest) from rfl, setEntry]
    by_cases he : e.1 = b
    · rw [if_pos he]
      have h1 : e.1 ≠ a := fun h2 => h (h2.symm.trans he)
      rw [lookupNe w rest h1, lookupNe e.2 rest h1]
    · rw [if_neg he]
      by_cases hea : e.1 = a
      · subst hea
        rw [lookupEq, lookupEq]
      · rw [lookupNe e.2 (setEntry b w rest) hea, lookupNe e.2 rest hea]
        exact ih

/-! ## C6: acceptance-check policy -/

theorem lookup_mapSecretContents (f : String → String → String) (tid qid : String)
    (store : Store) :
    (mapSecretContents f tid store).lookup qid =
      (store.lookup qid).map (fun t =>
        if qid = tid then { t with secrets := t.secrets.map (List.map (mapSNode f)) } else t) := by
  induction store with
  | nil => rfl
  | cons e rest ih =>
    show List.lookup qid
        ((if e.1 = tid
            then (e.1, { e.2 with secrets := e.2.secrets.map (List.map (mapSNode f)) })
            else e) :: mapSecretContents f tid rest) = _
    by_cases heq : e.1 = qid
    · subst heq
      by_cases he1 : e.1 = tid
      · rw [if_pos he1, lookupEq, show (e :: rest) = ((e.1, e.2) :: rest) from rfl, lookupEq]
        simp [if_pos he1]
      · rw [if_neg he1, show (e : String × TaskDir) = (e.1, e.2) from rfl, lookupEq,
          show ((e.1, e.2) :: rest : List (String × TaskDir)) = (e.1, e.2) :: rest from rfl]
        rw [show List.lookup e.1 ((e.1, e.2) :: rest) = some e.2 from lookupEq e.1 e.2 rest]
        simp [if_neg he1]
    · by_cases he1 : e.1 = tid
      · rw [if_pos he1,
          lookupNe { e.2 with secrets := e.2.secrets.map (List.map (mapSNode f)) }
            (mapSecretContents f tid rest) heq]
        rw [show (e :: rest) = ((e.1, e.2) :: rest) from rfl, lookupNe e.2 rest heq]
        exact ih
      · rw [if_neg he1, show (e : String × TaskDir) = (e.1, e.2) from rfl,
          lookupNe e.2 (mapSecretContents f tid rest) heq]
        rw [show ((e.1, e.2) :: rest : List (String × TaskDir)).lookup qid
              = List.lookup qid rest from lookupNe e.2 rest heq]
        exact ih

theorem filter_map_mapSNode (f : String → String → String) (es : List (String × SNode)) :
    ((es.map (mapSNode f)).filter isFileEntry).map Prod.fst =
      (es.filter isFileEntry).map Prod.fst := by
  induction es with
  | nil => rfl
  | cons n rest ih =>
    obtain ⟨name, node⟩ := n
    cases node <;> simp [mapSNode, isFileEntry, ih]

/-- Claim C6 (amended form): the acceptance check is determined by the first
probe in the probe list with an addressable target, all later probes ignored:
a matching observed code gives `ok=true`, a mismatched code or a raised error
gives `ok=false` with the address and the observed code or error text, and an
empty or non-addressable probe list gives `ok=true` — with info string
`'no_url_checks'` (not the claim's `"no checks"`). -/
theorem c6_first_probe_authoritative (l : List AcceptanceItem) (http : String → ProbeResult) :
    check_acceptance l http = acceptanceClaimModel l http := by
  induction l with
  | nil => rfl
  | cons a rest ih =>
    cases a with
    | nonDict => exact ih
    | noUrl => exact ih
    | probe u sr =>
      cases hh : http u with
      | code n =>
        by_cases hn : n = sr.getD 200 <;>
          simp [check_acceptance, acceptanceClaimModel, firstAddressable, hh, hn]
      | failure e =>
        simp [check_acceptance, acceptanceClaimModel, firstAddressable, hh]

/-- Claim C6, counterexample to the claim as stated: with an empty probe list
the code returns info `'no_url_checks'`, which is not the `"no checks"` the
claim specifies. -/
theorem c6_no_checks_info_counterexample :
    check_acceptance [] (fun _ => ProbeResult.code 200) =
      (true, AcceptInfo.info "no_url_checks") ∧
    AcceptInfo.info "no_url_checks" ≠ AcceptInfo.info "no checks" :=
  ⟨rfl, by decide⟩

/-! ## C5: records appended per deployment -/

/-- Claim C5 (amended form): every successful deployment appends exactly *two*
records to the per-task log — a provisional `\x7btask, timestamp, path\x7d` and
then the same record augmented with `acceptance` and `verified` — preserving
all existing elements (append-only), with the augmented record as the final,
authoritative last element. -/
theorem c5_two_record_appends (name ts iso p : String) (src : Dir)
    (acc : List AcceptanceItem) (http : String → ProbeResult) (s : DeployState) :
    (deployProcess name ts iso p src acc http s).1.records =
      s.records ++
        [{ task := name, timestamp := iso, path := p },
         { task := name, timestamp := iso, path := p,
           acceptance := some (check_acceptance acc http).2,
           verified := some (check_acceptance acc http).1 }] ∧
    (deployProcess name ts iso p src acc http s).1.records.getLast? =
      some { task := name, timestamp := iso, path := p,
             acceptance := some (check_acceptance acc http).2,
             verified := some (check_acceptance acc http).1 } := by
  have hrec : (deployFs ts src s).records = s.records := by
    cases hc : s.current <;> simp [deployFs, hc]
  have h1 : (deployProcess name ts iso p src acc http s).1.records =
      s.records ++
        [{ task := name, timestamp := iso, path := p },
         { task := name, timestamp := iso, path := p,
           acceptance := some (check_acceptance acc http).2,
           verified := some (check_acceptance acc http).1 }] := by
    show write_deploy_record
        (write_deploy_record (deployFs ts src s).records
          { task := name, timestamp := iso, path := p })
        { task := name, timestamp := iso, path := p,
          acceptance := some (check_acceptance acc http).2,
          verified := some (check_acceptance acc http).1 } = _
    rw [hrec]
    simp [write_deploy_record]
  refine ⟨h1, ?_⟩
  rw [h1, show s.records ++
      [{ task := name, timestamp := iso, path := p },
       { task := name, timestamp := iso, path := p,
         acceptance := some (check_acceptance acc http).2,
         verified := some (check_acceptance acc http).1 }] =
      (s.records ++ [{ task := name, timestamp := iso, path := p }]) ++
        [{ task := name, timestamp := iso, path := p,
           acceptance := some (check_acceptance acc http).2,
           verified := some (check_acceptance acc http).1 }] from by
    rw [List.append_assoc]; rfl]
  exact List.getLast?_concat _

/-- Claim C5, counterexample to the claim as stated: one successful deployment
on a fresh task leaves two records in the log, not exactly one. -/
theorem c5_single_deploy_two_records :
    (let s := (deployProcess "t1" "20250101T000000Z" "2025-01-01T00:00:00Z"
        "/workspace/deploy/t1/current" [("index.html", FileTree.file "v1")] []
        (fun _ => ProbeResult.code 200)
        { current := none, revisions := none, records := [] }).1
     s.records.length = 2 ∧ s.records.length ≠ 1) :=
  ⟨rfl, by decide⟩

/-! ## C9: the secrets listing never depends on secret file contents -/

/-- Claim C9 (confirmed): the secrets listing endpoint returns only file
names, and its output is identical on any two stores that differ only in the
contents of secret files: rewriting every secret file content of any task with
an arbitrary function leaves every `list_task_secrets` response unchanged. -/
theorem c9_secrets_noninterference (f : String → String → String) (tid qid : String)
    (store : Store) :
    list_task_secrets qid (mapSecretContents f tid store) = list_task_secrets qid store := by
  unfold list_task_secrets
  rw [lookup_mapSecretContents]
  cases hq : taskPathOk qid with
  | false => simp
  | true =>
    simp only [Bool.not_true, Bool.false_eq_true, if_false]
    cases hl : store.lookup qid with
    | none => simp
    | some t =>
      simp only [Option.map_some']
      by_cases ht : qid = tid
      · rw [if_pos ht]
        cases hs : t.secrets with
        | none => simp [hs]
        | some es => simp [hs, filter_map_mapSNode]
      · rw [if_neg ht]

/-! ## C2: `update_status` writes `meta.json` in place, with no temp + rename -/

/-- Claim C2 (amended form): `update_status` on an existing task performs a
read-modify-write that sets `status` and stamps `updated_at`, but the write
back is a direct `open(meta_file, 'w')` truncate-and-write at the final path:
the emitted filesystem trace is exactly a read of `meta.json` followed by a
direct write of `meta.json`, with no temporary path and no rename. -/
theorem c2_status_rmw_direct_write (store : Store) (tid st now : String) (m : Meta)
    (hpath : taskPathOk tid = true)
    (hm : (store.lookup tid).bind TaskDir.meta = some m) :
    update_status tid (some st) now store =
      (StatusResp.ok { m with status := st, updated_at := some now },
       setTaskMeta tid { m with status := st, updated_at := some now } store,
       [FsOp.readFile (metaPath tid), FsOp.writeFile (metaPath tid)]) := by
  simp [update_status, hpath, hm]

/-- Claim C2, witness for `c2_status_rmw_direct_write` at a concrete store. -/
theorem c2_status_rmw_direct_write_witness :
    taskPathOk "t1" = true ∧
    (([("t1", { spec := none,
                meta := some { id := "t1", title := "T", status := "created",
                               created_at := "20250101T000000Z" },
                secrets := none })] : Store).lookup "t1").bind TaskDir.meta =
      some { id := "t1", title := "T", status := "created",
             created_at := "20250101T000000Z" } ∧
    update_status "t1" (some "tested") "20250102T000000Z"
        [("t1", { spec := none,
                  meta := some { id := "t1", title := "T", status := "created",
                                 created_at := "20250101T000000Z" },
                  secrets := none })] =
      (StatusResp.ok { id := "t1", title := "T", status := "tested",
                       created_at := "20250101T000000Z",
                       updated_at := some "20250102T000000Z" },
       setTaskMeta "t1" { id := "t1", title := "T", status := "tested",
                          created_at := "20250101T000000Z",
                          updated_at := some "20250102T000000Z" }
         [("t1", { spec := none,
                   meta := some { id := "t1", title := "T", status := "created",
                                  created_at := "20250101T000000Z" },
                   secrets := none })],
       [FsOp.readFile (metaPath "t1"), FsOp.writeFile (metaPath "t1")]) :=
  ⟨by decide, by decide,
    c2_status_rmw_direct_write
      [("t1", { spec := none,
                meta := some { id := "t1", title := "T", status := "created",
                               created_at := "20250101T000000Z" },
                secrets := none })]
      "t1" "tested" "20250102T000000Z"
      { id := "t1", title := "T", status := "created", created_at := "20250101T000000Z" }
      (by decide) (by decide)⟩

/-- Claim C2, counterexample to the claim as stated: the write trace of a
successful `update_status` call contains a direct write of the final
`meta.json` path and no rename, so it does not satisfy the replace-on-write
discipline (write to a temporary path, then rename into place). -/
theorem c2_no_replace_on_write :
    ¬ usesReplaceOnWrite
        (update_status "t1" (some "tested") "20250102T000000Z"
          [("t1", { spec := none,
                    meta := some { id := "t1", title := "T", status := "created",
                                   created_at := "20250101T000000Z" },
                    secrets := none })]).2.2
        (metaPath "t1") := by
  intro h
  exact h.1 (FsOp.writeFile (metaPath "t1")) (by decide) rfl

/-! ## C4: duplicate check is skipped on the manifest-slug path -/

/-- Claim C4 (code-bug evaluation): with an existing task `blog` in status
`verified`, a `create_task` call whose body is a valid project manifest with
`slug = "blog"` (and no explicit request id, so a fresh generated id passes
the duplicate check) is *accepted*: it returns 201 and overwrites the existing
task's `spec.yaml` and `meta.json`, resetting its status to `created` — the
duplicate check of app.py line 197 is never re-run after the slug
reassignment of lines 214-216. -/
theorem c4_slug_path_overwrites :
    (let store0 : Store :=
       [("blog", { spec := some (SpecFile.fromRequest {}),
                   meta := some { id := "blog", title := "Blog", status := "verified",
                                  created_at := "20250101T000000Z" },
                   secrets := none })]
     let r := create_task true (fun _ => true) true (fun _ => true) "task-0a1b2c3d"
       "20250202T000000Z" none none
       { name := some "Blog Project", slug := some "blog" } store0
     r.1 = CreateResp.created { id := "blog", title := "untitled", status := "created",
                                created_at := "20250202T000000Z" } ∧
     ((r.2.lookup "blog").bind TaskDir.meta).map Meta.status = some "created" ∧
     ((store0.lookup "blog").bind TaskDir.meta).map Meta.status = some "verified") := by
  refine ⟨?_, ?_, ?_⟩ <;> decide

/-! ## C7 and C8: the deployment worker file is lexically broken -/

/-- Claim C7 (code-bug evaluation): the body of `create_followup_task`
(worker.py lines 53-68) violates Python's INDENT/DEDENT rule — its `try:` at
indent 8 follows a non-header logical line at indent 4 — so the worker module
cannot be loaded and no remediation task can ever be created. -/
theorem c7_followup_block_rejected :
    pyIndentOk [0] false createFollowupLines = false := by
  rfl

/-- Claim C8 (code-bug evaluation): the logical lines of
`src/deployment-agent/worker.py` up to line 65 already violate Python's
INDENT/DEDENT rule, so the module is rejected at load time
(`IndentationError: unexpected indent`, line 65) and the deployment agent's
poll loop never runs a single iteration. -/
theorem c8_worker_file_rejected :
    pyIndentOk [0] false deploymentWorkerHeadLines = false := by
  rfl

/-! ## C1: archival naming -/

/-- Claim C1 (amended form): archival of an existing `current` is a
`shutil.move` rename — deploy archives to `revisions/<ts>` and rollback to
`revisions/<now>_rollback`, and when the archive name is fresh this *appends*
a new uniquely-named revision, preserving every existing revision entry (no
overwrite).  There is, however, no same-second disambiguation; see the
counterexample `c1_same_second_collision`. -/
theorem c1_archival_rename_no_overwrite (s : DeployState) (c src : Dir)
    (revs : List (String × Dir)) (ts t : String)
    (hc : s.current = some c) (hr : s.revisions = some revs)
    (h1 : revs.lookup ts = none) (h2 : revs.lookup (t ++ "_rollback") = none)
    (hne : revs ≠ []) :
    (deployFs ts src s).revisions = some (revs ++ [(ts, c)]) ∧
    ((rollback_deploy t none (some s)).2.bind DeployState.revisions) =
      some (revs ++ [(t ++ "_rollback", c)]) := by
  constructor
  · simp [deployFs, hc, hr, archiveRev, h1]
  · obtain ⟨m, hm⟩ := maxName_isSome (revs.map Prod.fst) (by simpa using hne)
    simp only [rollback_deploy, hr, hm, doRestore, hc, archiveRev, h2]
    cases hlk : List.lookup m (revs ++ [(t ++ "_rollback", c)]) <;> simp [hlk]

/-- Claim C1, witness for `c1_archival_rename_no_overwrite` at a concrete
deployment area. -/
theorem c1_archival_rename_no_overwrite_witness :
    (let s : DeployState :=
       { current := some [("index.html", FileTree.file "v2")],
         revisions := some [("20250101T000000Z", [("index.html", FileTree.file "v1")])],
         records := [] }
     let revs : List (String × Dir) := [("20250101T000000Z", [("index.html", FileTree.file "v1")])]
     s.current = some [("index.html", FileTree.file "v2")] ∧
     s.revisions = some revs ∧
     revs.lookup "20250102T000000Z" = none ∧
     revs.lookup ("20250103T000000Z" ++ "_rollback") = none ∧
     revs ≠ [] ∧
     ((deployFs "20250102T000000Z" [("index.html", FileTree.file "v3")] s).revisions =
        some (revs ++ [("20250102T000000Z", [("index.html", FileTree.file "v2")])]) ∧
      ((rollback_deploy "20250103T000000Z" none (some s)).2.bind DeployState.revisions) =
        some (revs ++ [("20250103T000000Z" ++ "_rollback",
                        [("index.html", FileTree.file "v2")])]))) :=
  ⟨rfl, rfl, rfl, rfl, List.cons_ne_nil _ _,
    c1_archival_rename_no_overwrite _ _ [("index.html", FileTree.file "v3")] _
      "20250102T000000Z" "20250103T000000Z" rfl rfl rfl rfl (List.cons_ne_nil _ _)⟩

/-- Claim C1, counterexample to the claim as stated: two no-argument rollbacks
in the same timestamp second.  The second archival computes the same name
`20250101T000001Z_rollback` as the first; instead of disambiguating,
`shutil.move` silently moves the old `current` *into* the existing revision
directory: the set of revision names does not grow, and the colliding revision
now contains a nested `current` entry. -/
theorem c1_same_second_collision :
    (let s0 : DeployState :=
       { current := some [("index.html", FileTree.file "v2")],
         revisions := some [("20250101T000000Z", [("index.html", FileTree.file "v1")])],
         records := [] }
     let rb1 := rollback_deploy "20250101T000001Z" none (some s0)
     let rb2 := rollback_deploy "20250101T000001Z" none rb1.2
     rb1.1 = RbResp.ok "20250101T000000Z" ∧
     rb2.1 = RbResp.ok "20250101T000001Z_rollback" ∧
     (rb1.2.bind DeployState.revisions).map (List.map Prod.fst) =
       some ["20250101T000000Z", "20250101T000001Z_rollback"] ∧
     (rb2.2.bind DeployState.revisions).map (List.map Prod.fst) =
       some ["20250101T000000Z", "20250101T000001Z_rollback"] ∧
     ((rb2.2.bind DeployState.revisions).bind
         (fun l => l.lookup "20250101T000001Z_rollback")) =
       some [("index.html", FileTree.file "v2"),
             ("current", FileTree.dir [("index.html", FileTree.file "v1")])]) :=
  ⟨rfl, rfl, rfl, rfl, rfl⟩

/-! ## C3: deploy v1, deploy v2, rollback with no revision argument -/

/-- The deployment state after `deploy(v1)` then `deploy(v2)` on a fresh task
(no deploy area yet), with timestamps `ts1`/`iso1` and `ts2`/`iso2`. -/
def c3AfterDeploys (name ts1 iso1 ts2 iso2 p : String) (v1 v2 : Dir)
    (acc : List AcceptanceItem) (http : String → ProbeResult) : DeployState :=
  (deployProcess name ts2 iso2 p v2 acc http
    (deployProcess name ts1 iso1 p v1 acc http
      { current := none, revisions := none, records := [] }).1).1

/-- The `deploy_records.json` content those two deployments leave behind:
two entries per deployment, none for any rollback. -/
def c3Records (name iso1 iso2 p : String) (acc : List AcceptanceItem)
    (http : String → ProbeResult) : List DeployRecord :=
  [{ task := name, timestamp := iso1, path := p },
   { task := name, timestamp := iso1, path := p,
     acceptance := some (check_acceptance acc http).2,
     verified := some (check_acceptance acc http).1 },
   { task := name, timestamp := iso2, path := p },
   { task := name, timestamp := iso2, path := p,
     acceptance := some (check_acceptance acc http).2,
     verified := some (check_acceptance acc http).1 }]

/-- A rollback whose explicit revision is a plain path component (non-empty,
no slash, not `.` or `..`) that names no entry of the revisions listing
returns 404 `specified revision not found`, leaving the deploy area as it
was.  (For non-plain strings the endpoint performs no validation: `""` is
treated as omitted and `.`, `..` or slash-containing strings are joined onto
the revisions path and checked with `os.path.exists`, so they are not
rejected by name.) -/
theorem rollback_plain_missing (now r : String) (s : DeployState)
    (revs : List (String × Dir)) (hr : s.revisions = some revs)
    (hplain : isPlainName r = true) (hlk : List.lookup r revs = none) :
    rollback_deploy now (some r) (some s) = (RbResp.revisionNotFound, some s) := by
  have hr0 : (r != "") = true := by
    have h0 := hplain
    unfold isPlainName at h0
    simp only [Bool.and_eq_true] at h0
    exact h0.1.1.1
  simp [rollback_deploy, hr, hr0, hplain, hlk]

/-- Claim C3 (amended form): after `deploy(v1)`, `deploy(v2)`, a no-argument
rollback restores `current` byte-identical to `v1` (the rollback selects the
lexicographically greatest revision name, here the single archive `ts2` of
`v1`); a rollback with an explicit revision that is a plain path component
naming no existing revision fails NotFound (the endpoint does not validate
the revision string: `""` acts as omitted, and `.`, `..` or slash-containing
strings are resolved by `os.path.join` without a by-name 404).  The
deployment history, however, does *not* record all three operations: the two
deploys leave four records (two per deploy) and the rollback appends
nothing — the records after rollback are exactly the records before it. -/
theorem c3_roundtrip_amended (name ts1 iso1 ts2 iso2 t3 p r : String) (v1 v2 : Dir)
    (acc : List AcceptanceItem) (http : String → ProbeResult)
    (h1 : t3 ++ "_rollback" ≠ ts2) (hplain : isPlainName r = true) (h2 : r ≠ ts2) :
    rollback_deploy t3 none (some (c3AfterDeploys name ts1 iso1 ts2 iso2 p v1 v2 acc http)) =
      (RbResp.ok ts2,
       some { current := some v1,
              revisions := some [(ts2, v1), (t3 ++ "_rollback", v2)],
              records := c3Records name iso1 iso2 p acc http }) ∧
    (c3AfterDeploys name ts1 iso1 ts2 iso2 p v1 v2 acc http).records =
      c3Records name iso1 iso2 p acc http ∧
    (c3AfterDeploys name ts1 iso1 ts2 iso2 p v1 v2 acc http).current = some v2 ∧
    (rollback_deploy t3 (some r)
        (some (c3AfterDeploys name ts1 iso1 ts2 iso2 p v1 v2 acc http))).1 =
      RbResp.revisionNotFound := by
  have ha : List.lookup (t3 ++ "_rollback") ([(ts2, v1)] : List (String × Dir)) = none := by
    rw [lookupNe v1 [] (Ne.symm h1)]
    rfl
  have hb : List.lookup ts2 ([(ts2, v1), (t3 ++ "_rollback", v2)] : List (String × Dir)) =
      some v1 := lookupEq ts2 v1 _
  have hcr : List.lookup r ([(ts2, v1)] : List (String × Dir)) = none := by
    rw [lookupNe v1 [] (Ne.symm h2)]
    rfl
  refine ⟨?_, rfl, rfl, ?_⟩
  · show doRestore t3 ts2
        { current := some v2, revisions := some [(ts2, v1)],
          records := c3Records name iso1 iso2 p acc http } [(ts2, v1)] = _
    simp only [doRestore, archiveRev, ha, List.cons_append, List.nil_append, hb]
  · rw [rollback_plain_missing t3 r
        (c3AfterDeploys name ts1 iso1 ts2 iso2 p v1 v2 acc http) [(ts2, v1)]
        rfl hplain hcr]

/-- Claim C3, witness for `c3_roundtrip_amended` at concrete contents and
timestamps. -/
theorem c3_roundtrip_amended_witness :
    ("20250103T000000Z" ++ "_rollback" ≠ "20250102T000000Z") ∧
    (isPlainName "19990101T000000Z" = true) ∧
    ("19990101T000000Z" ≠ "20250102T000000Z") ∧
    (rollback_deploy "20250103T000000Z" none
        (some (c3AfterDeploys "t1" "20250101T000000Z" "2025-01-01T00:00:00Z"
          "20250102T000000Z" "2025-01-02T00:00:00Z" "/workspace/deploy/t1/current"
          [("index.html", FileTree.file "v1")] [("index.html", FileTree.file "v2")]
          [] (fun _ => ProbeResult.code 200))) =
      (RbResp.ok "20250102T000000Z",
       some { current := some [("index.html", FileTree.file "v1")],
              revisions := some [("20250102T000000Z", [("index.html", FileTree.file "v1")]),
                                 ("20250103T000000Z" ++ "_rollback",
                                  [("index.html", FileTree.file "v2")])],
              records := c3Records "t1" "2025-01-01T00:00:00Z" "2025-01-02T00:00:00Z"
                "/workspace/deploy/t1/current" [] (fun _ => ProbeResult.code 200) }) ∧
     (c3AfterDeploys "t1" "20250101T000000Z" "2025-01-01T00:00:00Z"
        "20250102T000000Z" "2025-01-02T00:00:00Z" "/workspace/deploy/t1/current"
        [("index.html", FileTree.file "v1")] [("index.html", FileTree.file "v2")]
        [] (fun _ => ProbeResult.code 200)).records =
       c3Records "t1" "2025-01-01T00:00:00Z" "2025-01-02T00:00:00Z"
         "/workspace/deploy/t1/current" [] (fun _ => ProbeResult.code 200) ∧
     (c3AfterDeploys "t1" "20250101T000000Z" "2025-01-01T00:00:00Z"
        "20250102T000000Z" "2025-01-02T00:00:00Z" "/workspace/deploy/t1/current"
        [("index.html", FileTree.file "v1")] [("index.html", FileTree.file "v2")]
        [] (fun _ => ProbeResult.code 200)).current =
       some [("index.html", FileTree.file "v2")] ∧
     (rollback_deploy "20250103T000000Z" (some "19990101T000000Z")
        (some (c3AfterDeploys "t1" "20250101T000000Z" "2025-01-01T00:00:00Z"
          "20250102T000000Z" "2025-01-02T00:00:00Z" "/workspace/deploy/t1/current"
          [("index.html", FileTree.file "v1")] [("index.html", FileTree.file "v2")]
          [] (fun _ => ProbeResult.code 200)))).1 =
       RbResp.revisionNotFound) :=
  ⟨by decide, by decide, by decide,
    c3_roundtrip_amended "t1" "20250101T000000Z" "2025-01-01T00:00:00Z"
      "20250102T000000Z" "2025-01-02T00:00:00Z" "20250103T000000Z"
      "/workspace/deploy/t1/current" "19990101T000000Z"
      [("index.html", FileTree.file "v1")] [("index.html", FileTree.file "v2")]
      [] (fun _ => ProbeResult.code 200) (by decide) (by decide) (by decide)⟩

/-- Claim C3, counterexample to the claim as stated: after `deploy(v1)`,
`deploy(v2)`, `rollback()`, the history does not record three operations — it
holds four records (two per deploy), and the rollback leaves the record list
exactly as it was before the rollback. -/
theorem c3_history_counterexample :
    (let s2 := c3AfterDeploys "t1" "20250101T000000Z" "2025-01-01T00:00:00Z"
       "20250102T000000Z" "2025-01-02T00:00:00Z" "/workspace/deploy/t1/current"
       [("index.html", FileTree.file "v1")] [("index.html", FileTree.file "v2")]
       [] (fun _ => ProbeResult.code 200)
     let rb := rollback_deploy "20250103T000000Z" none (some s2)
     (rb.2.map DeployState.records) = some s2.records ∧
     s2.records.length = 4 ∧
     s2.records.length ≠ 3) :=
  ⟨rfl, rfl, by decide⟩

/-! ## C10: suffixed archives win the lexicographic selection; rollbacks
oscillate between the last two snapshots -/

theorem lookup_mem_keys {β : Type} {m : String} {l : List (String × β)}
    (h : m ∈ l.map Prod.fst) : ∃ v, List.lookup m l = some v := by
  induction l with
  | nil => simp at h
  | cons e rest ih =>
    by_cases he : e.1 = m
    · refine ⟨e.2, ?_⟩
      rw [show (e :: rest) = ((e.1, e.2) :: rest) from rfl]
      subst he
      exact lookupEq e.1 e.2 rest
    · have h2 : m ∈ rest.map Prod.fst := by
        rw [List.map_cons] at h
        rcases List.mem_cons.mp h with h3 | h3
        · exact absurd h3.symm he
        · exact h3
      obtain ⟨v, hv⟩ := ih h2
      refine ⟨v, ?_⟩
      rw [show (e :: rest) = ((e.1, e.2) :: rest) from rfl, lookupNe e.2 rest he]
      exact hv

/-- Claim C10 (confirmed): on any deployment area whose revision names are all
lexicographically at most `t2`, a no-argument rollback at time `t2` followed
by a no-argument rollback at a different time `t3` selects the
`t2_rollback`-suffixed archive as the lexicographically greatest name (it
beats every plain revision with an earlier-or-equal timestamp) and restores
exactly the `current` content that was live before the first rollback. -/
theorem c10_rollback_oscillation (s : DeployState) (revs : List (String × Dir)) (c : Dir)
    (t2 t3 : String)
    (hr : s.revisions = some revs) (hc : s.current = some c) (hne : revs ≠ [])
    (hle : ∀ n ∈ revs.map Prod.fst, pyStrLe n t2 = true)
    (h23 : t2 ≠ t3) :
    (rollback_deploy t3 none (rollback_deploy t2 none (some s)).2).1 =
      RbResp.ok (t2 ++ "_rollback") ∧
    ((rollback_deploy t3 none (rollback_deploy t2 none (some s)).2).2.bind
        DeployState.current) = some c := by
  obtain ⟨m, hm⟩ := maxName_isSome (revs.map Prod.fst) (by simpa using hne)
  have hmem : m ∈ revs.map Prod.fst := maxName_mem hm
  have hanotmem : (t2 ++ "_rollback") ∉ revs.map Prod.fst := by
    intro hmem2
    exact absurd rfl (pyStrLt_ne (pyStrLe_lt_append _ t2 (hle _ hmem2)))
  have hanone : List.lookup (t2 ++ "_rollback") revs = none :=
    lookup_none_of_not_mem hanotmem
  obtain ⟨vm, hvm⟩ := lookup_mem_keys hmem
  have hrb1 : rollback_deploy t2 none (some s) =
      (RbResp.ok m,
       some { current := some vm,
              revisions := some (revs ++ [(t2 ++ "_rollback", c)]),
              records := s.records }) := by
    simp only [rollback_deploy, hr, hm, doRestore, hc, archiveRev, hanone]
    rw [lookup_append_left hvm [(t2 ++ "_rollback", c)]]
  have hmax2 : maxName ((revs ++ [(t2 ++ "_rollback", c)]).map Prod.fst) =
      some (t2 ++ "_rollback") := by
    rw [List.map_append]
    exact maxName_append_big _ _ (fun x hx => pyStrLe_lt_append x t2 (hle x hx))
  have hbne : t2 ++ "_rollback" ≠ t3 ++ "_rollback" :=
    fun h => h23 (append_cancel_strings "_rollback" h)
  have hinner : List.lookup (t2 ++ "_rollback") (revs ++ [(t2 ++ "_rollback", c)]) = some c :=
    lookup_append_fresh c hanone
  have hlk3 : List.lookup (t2 ++ "_rollback")
      (archiveRev (t3 ++ "_rollback") vm (revs ++ [(t2 ++ "_rollback", c)])) = some c := by
    unfold archiveRev
    cases hlkb : List.lookup (t3 ++ "_rollback") (revs ++ [(t2 ++ "_rollback", c)]) with
    | none =>
      simp only
      exact lookup_append_left hinner _
    | some es =>
      simp only
      rw [setEntry_lookup_ne _ _ hbne]
      exact hinner
  have hrb2 : rollback_deploy t3 none
      (some { current := some vm,
              revisions := some (revs ++ [(t2 ++ "_rollback", c)]),
              records := s.records }) =
      (RbResp.ok (t2 ++ "_rollback"),
       some { current := some c,
              revisions := some (archiveRev (t3 ++ "_rollback") vm
                (revs ++ [(t2 ++ "_rollback", c)])),
              records := s.records }) := by
    simp only [rollback_deploy, hmax2, doRestore, hlk3]
  rw [hrb1, hrb2]
  exact ⟨rfl, rfl⟩

/-- Claim C10, witness for `c10_rollback_oscillation` at a concrete
deployment area with one plain revision. -/
theorem c10_rollback_oscillation_witness :
    (let s : DeployState :=
       { current := some [("index.html", FileTree.file "v2")],
         revisions := some [("20250101T000000Z", [("index.html", FileTree.file "v1")])],
         records := [] }
     s.revisions = some [("20250101T000000Z", [("index.html", FileTree.file "v1")])] ∧
     s.current = some [("index.html", FileTree.file "v2")] ∧
     ([("20250101T000000Z", [("index.html", FileTree.file "v1")])] : List (String × Dir)) ≠ [] ∧
     (∀ n ∈ ([("20250101T000000Z",
         [("index.html", FileTree.file "v1")])] : List (String × Dir)).map Prod.fst,
       pyStrLe n "20250102T000000Z" = true) ∧
     ("20250102T000000Z" ≠ "20250103T000000Z") ∧
     ((rollback_deploy "20250103T000000Z" none
          (rollback_deploy "20250102T000000Z" none (some s)).2).1 =
        RbResp.ok ("20250102T000000Z" ++ "_rollback") ∧
      ((rollback_deploy "20250103T000000Z" none
          (rollback_deploy "20250102T000000Z" none (some s)).2).2.bind
        DeployState.current) = some [("index.html", FileTree.file "v2")])) :=
  ⟨rfl, rfl, List.cons_ne_nil _ _, by decide, by decide,
    c10_rollback_oscillation _ [("20250101T000000Z", [("index.html", FileTree.file "v1")])]
      [("index.html", FileTree.file "v2")] "20250102T000000Z" "20250103T000000Z"
      rfl rfl (List.cons_ne_nil _ _) (by decide) (by decide)⟩
